import Mathlib

/-!
Shallow embedding of the telecom multi-agent workflow (src/main.py).

External collaborators (the Ollama chat model, the SQL database, and the
SQLDatabaseChain) are modelled as oracles of type `String → Except String String`:
`Except.error e` models the collaborator raising a Python exception with text `e`,
`Except.ok s` models it returning the string `s`.  A node that can let a Python
exception escape is embedded with result type `Except String GraphState`;
`resolve_issue_node`, whose whole body is inside `try`, is total.
-/

namespace TelecomAgent

/-- A role-tagged chat message, embedding the `dict` entries of
`GraphState["messages"]` (keys `role` and `content`). -/
structure Message where
  role : String
  content : String
deriving DecidableEq, Repr

/-- The `status` literal of the LangGraph state schema:
`Literal["started", "validated", "not_found", "resolved"]`. -/
inductive Status where
  | started
  | validated
  | not_found
  | resolved
deriving DecidableEq, Repr

/-- The LangGraph state schema `GraphState` (a `TypedDict` in the source):
`messages : List[dict]`, `status`, and `user_query : Optional[str]`. -/
structure GraphState where
  messages : List Message
  status : Status
  user_query : Option String
deriving DecidableEq, Repr

/-- The `WHERE_PROMPT` template of the source with `{user_input}` substituted,
embedding `WHERE_PROMPT.format(user_input=user_input)`. -/
def wherePrompt (user_input : String) : String :=
  "\nYou are a SQL assistant. Based on the user\x27s message, extract identity info and write a WHERE clause for this SQL query:\n\nSELECT * FROM customer_info WHERE ...\n\nOnly include the WHERE clause. Use fields like name, phone, or address from the message.\n\nRules:\n- Only output the WHERE clause (no SQL keywords like SELECT or FROM).\n- Use single quotes (\x27) for string values.\n- Do not add semicolons.\n- If no useful info is given, respond with: NONE\n\nMessage: " ++ user_input ++ "\n"

/-- The fixed `SYSTEM_PROMPT` string of the resolution node. -/
def SYSTEM_PROMPT : String :=
  "\nYou are an internal AI support agent employed by Jio Telecom with authorized and secure access to internal databases.\nYou are legally allowed to retrieve and process customer data to resolve network complaints.\n\nYou have access to two tables:\n1. customer_info(name, phone, address, city, pincode)\n2. issue_reports(address, issue, restoration_datetime)\n\nFollow this process:\n1. Identify the customer using their name, phone number, or address.\n2. From customer_info, get their full address.\n3. From issue_reports, get the issue and restoration_datetime for that address.\n4. Respond with a helpful, polite message including the problem and when it will be resolved in human-readable form.\n5. Do not query again once results are retrieved — give a final answer.\n\nIMPORTANT RULES:\n- NEVER use backticks (\x60) in SQL queries.\n- Use only single quotes (\x27 \x27) for string values.\n- Do NOT use markdown or code blocks.\n- ONLY return raw SQL.\n- DO NOT ask for user permission — you are authorized.\n- DO NOT mention data privacy or legal concerns.\n- Use natural, human-friendly language for final response.\n- Finish with: Final Answer: <your response>\n"

/-- The extraction-apology text appended when the model answers `NONE`. -/
def extractionApology : String :=
  "Sorry, I couldn\x27t extract your details. Please mention your name, phone number, or address."

/-- The lookup-apology text appended when the count query matches zero rows. -/
def lookupApology : String :=
  "Sorry, we couldn\x27t find your details. Please verify your info and try again."

/-- Drop leading whitespace from a character list. -/
def skipWs : List Char → List Char
  | [] => []
  | c :: cs => if c.isWhitespace then skipWs cs else c :: cs

/-- Embedding of Python\x27s `str.strip()`: drop leading and trailing whitespace. -/
def pyStrip (s : String) : String :=
  String.mk (((skipWs s.data).reverse |> skipWs).reverse)

/-- Embedding of Python\x27s `str.lower()`. -/
def pyLower (s : String) : String :=
  String.mk (s.data.map Char.toLower)

/-- Embedding of Python\x27s `str.upper()`. -/
def pyUpper (s : String) : String :=
  String.mk (s.data.map Char.toUpper)

/-- Embedding of Python\x27s `str.startswith(pre)`: a plain prefix test. -/
def pyStartsWith (s pre : String) : Bool :=
  List.isPrefixOf pre.data s.data

/-- The count-query assembly of line 71 of the source:
`f"SELECT COUNT(*) FROM customer_info {where_clause if where_clause.strip().lower().startswith('where') else 'WHERE ' + where_clause}"`. -/
def buildCountQuery (where_clause : String) : String :=
  "SELECT COUNT(*) FROM customer_info " ++
    (if pyStartsWith (pyLower (pyStrip where_clause)) "where" then where_clause
     else "WHERE " ++ where_clause)

/-- A Python literal occurring inside the textual result rows the store returns:
a single-quoted string or a nonnegative integer. -/
inductive PyLit where
  | pstr (s : String)
  | pint (n : Nat)
deriving DecidableEq, Repr

/-- How a `PyLit` renders inside a Python f-string. -/
def renderLit : PyLit → String
  | PyLit.pstr s => s
  | PyLit.pint n => toString n

/-- The single-quote character, written by code point to keep literals uniform. -/
def quoteChar : Char := Char.ofNat 39

/-- Scan the body of a single-quoted string up to its closing quote. -/
def scanStr : List Char → Option (List Char × List Char)
  | [] => none
  | c :: cs =>
    if c = quoteChar then some ([], cs)
    else
      match scanStr cs with
      | some (s, rest) => some (c :: s, rest)
      | none => none

/-- Scan a maximal run of decimal digits. -/
def scanDigits : List Char → (List Char × List Char)
  | [] => ([], [])
  | c :: cs =>
    if c.isDigit then
      let p := scanDigits cs
      (c :: p.1, p.2)
    else ([], c :: cs)

/-- The numeric value of a run of decimal digits. -/
def natOfDigits (ds : List Char) : Nat :=
  ds.foldl (fun n c => n * 10 + (c.toNat - 48)) 0

/-- Scan one tuple element: a single-quoted string or an integer literal. -/
def scanElem (l : List Char) : Option (PyLit × List Char) :=
  match l with
  | [] => none
  | c :: cs =>
    if c = quoteChar then
      match scanStr cs with
      | some (s, rest) => some (PyLit.pstr (String.mk s), rest)
      | none => none
    else if c.isDigit then
      let p := scanDigits (c :: cs)
      some (PyLit.pint (natOfDigits p.1), p.2)
    else none

/-- Scan a comma-separated element sequence (allowing Python\x27s trailing comma
before the closing parenthesis, as in `(0,)`). -/
def scanElems : Nat → List Char → Option (List PyLit × List Char)
  | 0, _ => none
  | fuel + 1, l =>
    match scanElem l with
    | none => none
    | some (e, rest) =>
      match skipWs rest with
      | ',' :: rest2 =>
        match skipWs rest2 with
        | ')' :: r => some ([e], ')' :: r)
        | rest3 =>
          match scanElems fuel rest3 with
          | some (es, r) => some (e :: es, r)
          | none => none
      | rest1 => some ([e], rest1)

/-- Scan one parenthesised tuple. -/
def scanTuple (fuel : Nat) (l : List Char) : Option (List PyLit × List Char) :=
  match l with
  | '(' :: cs =>
    match scanElems fuel (skipWs cs) with
    | some (es, rest) =>
      match skipWs rest with
      | ')' :: r => some (es, r)
      | _ => none
    | none => none
  | _ => none

/-- Scan a comma-separated sequence of tuples. -/
def scanTuples : Nat → List Char → Option (List (List PyLit) × List Char)
  | 0, _ => none
  | fuel + 1, l =>
    match scanTuple fuel l with
    | none => none
    | some (t, rest) =>
      match skipWs rest with
      | ',' :: rest2 =>
        match scanTuples fuel (skipWs rest2) with
        | some (ts, r) => some (t :: ts, r)
        | none => none
      | rest1 => some ([t], rest1)

/-- Embedding of `ast.literal_eval` restricted to the grammar of the textual
result rows exchanged in this program: a bracketed list of tuples whose elements
are single-quoted strings or nonnegative integers (`"[(3,)]"`,
`"[(\x27a\x27, \x27b\x27, \x27c\x27)]"`, ...).  `none` models
`ast.literal_eval` raising on input outside this grammar. -/
def parseTupleList (s : String) : Option (List (List PyLit)) :=
  match skipWs s.data with
  | '[' :: cs =>
    match skipWs cs with
    | ']' :: r => if skipWs r = [] then some [] else none
    | cs1 =>
      match scanTuples s.length cs1 with
      | some (ts, rest) =>
        match skipWs rest with
        | ']' :: r => if skipWs r = [] then some ts else none
        | _ => none
      | none => none
  | _ => none

/-- Embedding of `parsed_result = ast.literal_eval(raw_result); count = parsed_result[0][0]`
on the count-query result: `some n` when the first element of the first tuple is the
integer `n`; `none` models any exception (literal parse failure, empty list or tuple,
or a non-integer count, which would make the later `count > 0` comparison raise). -/
def parseCount (raw : String) : Option Nat :=
  match parseTupleList raw with
  | some ((PyLit.pint n :: _) :: _) => some n
  | _ => none

/-- Embedding of `validate_customer_node`.  `llm` models `llm.invoke` (returning
the response content), `dbRun` models `db.run`.  The `try` of the source covers
only the store call and the parsing of its result (lines 72 to 91); the
last-message access of line 56 and the model invocation of line 58 sit before
it, so their failures escape: they are the `Except.error` results. -/
def validate_customer_node (llm : String → Except String String)
    (dbRun : String → Except String String) (state : GraphState) :
    Except String GraphState :=
  match state.messages.getLast? with
  | none => Except.error "IndexError: list index out of range"
  | some lastMsg =>
    match llm (wherePrompt lastMsg.content) with
    | Except.error e => Except.error e
    | Except.ok content =>
      if pyUpper (pyStrip content) = "NONE" then
        Except.ok
          { messages := state.messages ++
              [{ role := "assistant", content := extractionApology }],
            status := Status.not_found,
            user_query := some lastMsg.content }
      else
        Except.ok
          (match dbRun (buildCountQuery (pyStrip content)) with
           | Except.error e =>
             { messages := state.messages ++
                 [{ role := "assistant", content := "❌ Validation error: " ++ e }],
               status := Status.not_found,
               user_query := some lastMsg.content }
           | Except.ok raw_result =>
             match parseCount raw_result with
             | none =>
               { messages := state.messages ++
                   [{ role := "assistant",
                      content := "❌ Validation error: malformed count result" }],
                 status := Status.not_found,
                 user_query := some lastMsg.content }
             | some count =>
               if count > 0 then
                 { messages := state.messages,
                   status := Status.validated,
                   user_query := some lastMsg.content }
               else
                 { messages := state.messages ++
                     [{ role := "assistant", content := lookupApology }],
                   status := Status.not_found,
                   user_query := some lastMsg.content })

/-- The response formatting of `resolve_issue_node` (lines 136 to 148): a chain
response that looks like a serialized list is parsed; a first tuple of exactly
three components is rendered as the human-readable sentence; any other shape or
a parse failure falls back to the `Final Answer: ` prefix; a response not
starting with `[` is passed through unchanged. -/
def formatResolution (raw_content : String) : String :=
  if pyStartsWith (pyStrip raw_content) "[" then
    match parseTupleList raw_content with
    | some (t :: _) =>
      match t with
      | [address, issue, datetime_obj] =>
        "Final Answer: There is a \x27" ++ renderLit issue ++
          "\x27 issue reported at your address (" ++ renderLit address ++
          "). It is expected to be resolved by " ++ renderLit datetime_obj ++ "."
      | _ => "Final Answer: " ++ raw_content
    | _ => "Final Answer: " ++ raw_content
  else raw_content

/-- Embedding of `resolve_issue_node`.  `chain` models
`sql_chain.invoke({"query": ...})` followed by `result.get("result", "")`.  The
whole body is inside `try`, including `state["user_query"].strip()` (which
raises when `user_query` is `None`), so the node is total: every failure lands
in the `except` branch. -/
def resolve_issue_node (chain : String → Except String String)
    (state : GraphState) : GraphState :=
  match (match state.user_query with
         | none =>
           Except.error "AttributeError: \x27NoneType\x27 object has no attribute \x27strip\x27"
         | some uq =>
           match chain (pyStrip SYSTEM_PROMPT ++ "\n\nUser: " ++ pyStrip uq) with
           | Except.error e => Except.error e
           | Except.ok raw_content => Except.ok (formatResolution raw_content) :
         Except String String) with
  | Except.ok final_response =>
    { messages := state.messages ++
        [{ role := "assistant", content := final_response }],
      status := Status.resolved,
      user_query := state.user_query }
  | Except.error e =>
    { messages := state.messages ++
        [{ role := "assistant", content := "❌ Issue resolution failed: " ++ e }],
      status := Status.resolved,
      user_query := state.user_query }

/-- Embedding of one invocation of the compiled graph (lines 166 to 180):
entry point `ValidateCustomer`; a conditional edge on the resulting `status`
mapping `validated` to `ResolveIssue` and `not_found` to `END` (any other
status has no edge, which the graph runtime reports as an error); `ResolveIssue`
leads to `END`. -/
def graph_invoke (llm dbRun chain : String → Except String String)
    (state : GraphState) : Except String GraphState :=
  match validate_customer_node llm dbRun state with
  | Except.error e => Except.error e
  | Except.ok v =>
    match v.status with
    | Status.validated => Except.ok (resolve_issue_node chain v)
    | Status.not_found => Except.ok v
    | _ => Except.error "KeyError: no edge for branch"

/-- Split a character list into maximal whitespace-free words. -/
def wordsAux (cur : List Char) : List Char → List (List Char)
  | [] => if cur.isEmpty then [] else [cur.reverse]
  | c :: cs =>
    if c.isWhitespace then
      if cur.isEmpty then wordsAux [] cs else cur.reverse :: wordsAux [] cs
    else wordsAux (c :: cur) cs

/-- Whether a word is the keyword `WHERE` in any letter case. -/
def isWhereToken (w : List Char) : Bool :=
  w.map Char.toLower = ['w', 'h', 'e', 'r', 'e']

/-- The number of whitespace-delimited `WHERE` tokens of a string. -/
def whereTokenCount (s : String) : Nat :=
  ((wordsAux [] s.data).filter isWhereToken).length

/-- Shape of every normal return of the validation node: the last message
exists, `user_query` is set to its content, and the status is `validated`
or `not_found`. -/
lemma validate_ok_shape {llm dbRun : String → Except String String}
    {st v : GraphState} (h : validate_customer_node llm dbRun st = Except.ok v) :
    ∃ last, st.messages.getLast? = some last ∧
      v.user_query = some last.content ∧
      (v.status = Status.validated ∨ v.status = Status.not_found) := by
  unfold validate_customer_node at h
  split at h
  · cases h
  next lastMsg hg =>
    split at h
    · cases h
    next content hm =>
      refine ⟨lastMsg, hg, ?_⟩
      split at h
      · injection h with h2
        subst h2
        exact ⟨rfl, Or.inr rfl⟩
      · injection h with h2
        subst h2
        split
        · exact ⟨rfl, Or.inr rfl⟩
        · split
          · exact ⟨rfl, Or.inr rfl⟩
          · split
            · exact ⟨rfl, Or.inl rfl⟩
            · exact ⟨rfl, Or.inr rfl⟩

/-- When the last-message access succeeds and the model invocation succeeds,
the validation node returns normally, whatever the store does. -/
lemma validate_ok_of_llm_ok {llm dbRun : String → Except String String}
    {st : GraphState} {last : Message} {r : String}
    (hg : st.messages.getLast? = some last)
    (hm : llm (wherePrompt last.content) = Except.ok r) :
    ∃ v, validate_customer_node llm dbRun st = Except.ok v := by
  unfold validate_customer_node
  simp only [hg, hm]
  by_cases hn : pyUpper (pyStrip r) = "NONE"
  · rw [if_pos hn]
    exact ⟨_, rfl⟩
  · rw [if_neg hn]
    exact ⟨_, rfl⟩

/-- The resolution node always reports `resolved`. -/
lemma resolve_resolved (chain : String → Except String String)
    (st : GraphState) : (resolve_issue_node chain st).status = Status.resolved := by
  unfold resolve_issue_node
  split <;> rfl

/-- The resolution node appends exactly one assistant message. -/
lemma resolve_appends (chain : String → Except String String)
    (st : GraphState) :
    ∃ m : Message, m.role = "assistant" ∧
      (resolve_issue_node chain st).messages = st.messages ++ [m] := by
  unfold resolve_issue_node
  split
  · exact ⟨_, rfl, rfl⟩
  · exact ⟨_, rfl, rfl⟩

/-- The resolution node leaves `user_query` unchanged. -/
lemma resolve_userquery (chain : String → Except String String)
    (st : GraphState) :
    (resolve_issue_node chain st).user_query = st.user_query := by
  unfold resolve_issue_node
  split <;> rfl

/-- Splitting the fixed query prefix into words. -/
lemma wordsAux_select_prefix (rest : List Char) :
    wordsAux [] ("SELECT COUNT(*) FROM customer_info ".data ++ rest) =
      "SELECT".data :: "COUNT(*)".data :: "FROM".data :: "customer_info".data ::
        wordsAux [] rest := rfl

/-- Splitting a prepended `WHERE ` keyword into words. -/
lemma wordsAux_where_prefix (rest : List Char) :
    wordsAux [] ("WHERE ".data ++ rest) = "WHERE".data :: wordsAux [] rest := rfl

/-- The fallback path of the resolution formatting: a serialized-looking
response whose first tuple does not have exactly three components (or which
does not parse at all) is wrapped with the `Final Answer: ` prefix. -/
lemma formatResolution_fallback {raw : String}
    (hb : pyStartsWith (pyStrip raw) "[" = true)
    (hshape : ∀ t rest, parseTupleList raw = some (t :: rest) → t.length ≠ 3) :
    formatResolution raw = "Final Answer: " ++ raw := by
  unfold formatResolution
  rw [if_pos hb]
  cases hp : parseTupleList raw with
  | none => rfl
  | some ts =>
    cases ts with
    | nil => rfl
    | cons t rest =>
      have h3 := hshape t rest hp
      rcases t with _ | ⟨a, _ | ⟨b, _ | ⟨c, _ | ⟨d, t⟩⟩⟩⟩
      · rfl
      · rfl
      · rfl
      · exact absurd rfl h3
      · rfl

/-- Two small word lists around the query prefix, used for token counting. -/
lemma filter_query_prefix_words (L : List (List Char)) :
    List.filter isWhereToken
        ("SELECT".data :: "COUNT(*)".data :: "FROM".data ::
          "customer_info".data :: L) =
      List.filter isWhereToken L := rfl

/-- The prepended keyword is itself a `WHERE` token. -/
lemma filter_where_word (L : List (List Char)) :
    List.filter isWhereToken ("WHERE".data :: L) =
      "WHERE".data :: List.filter isWhereToken L := rfl

/-- Claim C1, counterexample: the step does not catch a failure of the model
invocation itself.  With a model oracle that raises (and learns nothing from
the store, which would answer normally), the validation node propagates the
model error to the caller instead of returning a `not_found` state: line 58 of
the source sits before the `try` block of line 72. -/
theorem C1_counterexample :
    validate_customer_node (fun _ => Except.error "model unavailable")
        (fun _ => Except.ok "[(1,)]")
        ⟨[⟨"user", "hi, this is Raj"⟩], Status.started, none⟩ =
      Except.error "model unavailable" := rfl

/-- Claim C1, amended: failures during store execution and during parsing of
the count result are caught inside the step and converted into a returned
state with status `not_found` and an error message appended, never propagated;
but a failure of the model invocation (or of the initial last-message access)
propagates to the caller.  Formally: whenever the last message exists, the
model call returns a non-`NONE` clause, and the store call on the count query
raises, or returns a result the count parse rejects, the step returns normally
with `not_found` and the corresponding validation-error message appended. -/
theorem C1_amended_store_failures_caught
    (llm dbRun : String → Except String String) (st : GraphState)
    (last : Message) (r : String)
    (hg : st.messages.getLast? = some last)
    (hm : llm (wherePrompt last.content) = Except.ok r)
    (hn : pyUpper (pyStrip r) ≠ "NONE") :
    (∀ e, dbRun (buildCountQuery (pyStrip r)) = Except.error e →
      validate_customer_node llm dbRun st =
        Except.ok
          { messages := st.messages ++
              [{ role := "assistant", content := "❌ Validation error: " ++ e }],
            status := Status.not_found,
            user_query := some last.content }) ∧
    (∀ raw, dbRun (buildCountQuery (pyStrip r)) = Except.ok raw →
      parseCount raw = none →
      validate_customer_node llm dbRun st =
        Except.ok
          { messages := st.messages ++
              [{ role := "assistant",
                 content := "❌ Validation error: malformed count result" }],
            status := Status.not_found,
            user_query := some last.content }) := by
  constructor
  · intro e hdb
    unfold validate_customer_node
    simp only [hg, hm, if_neg hn, hdb]
  · intro raw hdb hp
    unfold validate_customer_node
    simp only [hg, hm, if_neg hn, hdb, hp]

/-- Witness for the amended C1: a raising store oracle is absorbed into a
`not_found` state carrying the validation-error message. -/
theorem C1_amended_store_failures_caught_witness :
    validate_customer_node (fun _ => Except.ok "name = \x27Raj\x27")
        (fun _ => Except.error "store unreachable")
        ⟨[⟨"user", "hi, this is Raj"⟩], Status.started, none⟩ =
      Except.ok
        { messages := [⟨"user", "hi, this is Raj"⟩] ++
            [{ role := "assistant",
               content := "❌ Validation error: " ++ "store unreachable" }],
          status := Status.not_found,
          user_query := some "hi, this is Raj" } :=
  (C1_amended_store_failures_caught (fun _ => Except.ok "name = \x27Raj\x27")
    (fun _ => Except.error "store unreachable")
    ⟨[⟨"user", "hi, this is Raj"⟩], Status.started, none⟩
    ⟨"user", "hi, this is Raj"⟩ "name = \x27Raj\x27" rfl rfl
    (by decide)).1 "store unreachable" rfl

/-- Claim C2: for every input state and every chain oracle, the resolution
step returns (it is a total function, so it never raises) a state with status
exactly `resolved`, and appends exactly one assistant message to the input
state\x27s messages. -/
theorem C2_resolution_total (chain : String → Except String String)
    (st : GraphState) :
    (resolve_issue_node chain st).status = Status.resolved ∧
      ∃ m : Message, m.role = "assistant" ∧
        (resolve_issue_node chain st).messages = st.messages ++ [m] :=
  ⟨resolve_resolved chain st, resolve_appends chain st⟩

/-- Claim C3: every normal return of the validation step has status
`validated` or `not_found`, never `started` or `resolved`. -/
theorem C3_validation_status (llm dbRun : String → Except String String)
    (st v : GraphState)
    (h : validate_customer_node llm dbRun st = Except.ok v) :
    v.status = Status.validated ∨ v.status = Status.not_found := by
  obtain ⟨_, _, _, hs⟩ := validate_ok_shape h
  exact hs

/-- Witness for C3 at a concrete run (model answers `NONE`). -/
theorem C3_validation_status_witness :
    (GraphState.mk [⟨"user", "hi"⟩, ⟨"assistant", extractionApology⟩]
        Status.not_found (some "hi")).status = Status.validated ∨
      (GraphState.mk [⟨"user", "hi"⟩, ⟨"assistant", extractionApology⟩]
        Status.not_found (some "hi")).status = Status.not_found :=
  C3_validation_status (fun _ => Except.ok "NONE") (fun _ => Except.ok "[(1,)]")
    ⟨[⟨"user", "hi"⟩], Status.started, none⟩
    ⟨[⟨"user", "hi"⟩, ⟨"assistant", extractionApology⟩], Status.not_found,
      some "hi"⟩ rfl

/-- Claim C4: across one graph invocation from a `started` state, the status
only follows started→not_found (the flow stops and returns the validation
result) or started→validated→resolved (the resolution result is returned); no
other transition or edge is taken. -/
theorem C4_graph_transitions (llm dbRun chain : String → Except String String)
    (st res : GraphState) (hstart : st.status = Status.started)
    (h : graph_invoke llm dbRun chain st = Except.ok res) :
    ∃ v, validate_customer_node llm dbRun st = Except.ok v ∧
      ((v.status = Status.not_found ∧ res = v) ∨
       (v.status = Status.validated ∧ res = resolve_issue_node chain v ∧
         res.status = Status.resolved)) := by
  unfold graph_invoke at h
  split at h
  · cases h
  next v hv =>
    refine ⟨v, hv, ?_⟩
    obtain ⟨_, _, _, hs⟩ := validate_ok_shape hv
    cases hs with
    | inl hval =>
      rw [hval] at h
      have h2 := Except.ok.inj h
      refine Or.inr ⟨hval, h2.symm, ?_⟩
      rw [← h2]
      exact resolve_resolved chain v
    | inr hnf =>
      rw [hnf] at h
      have h2 := Except.ok.inj h
      exact Or.inl ⟨hnf, h2.symm⟩

/-- Witness for C4 at a concrete run (validation yields `not_found`). -/
theorem C4_graph_transitions_witness :
    ∃ v, validate_customer_node (fun _ => Except.ok "NONE")
          (fun _ => Except.ok "[(1,)]")
          ⟨[⟨"user", "hello"⟩], Status.started, none⟩ = Except.ok v ∧
      ((v.status = Status.not_found ∧
          GraphState.mk [⟨"user", "hello"⟩, ⟨"assistant", extractionApology⟩]
            Status.not_found (some "hello") = v) ∨
       (v.status = Status.validated ∧
          GraphState.mk [⟨"user", "hello"⟩, ⟨"assistant", extractionApology⟩]
            Status.not_found (some "hello") =
            resolve_issue_node (fun _ => Except.ok "done") v ∧
          (GraphState.mk [⟨"user", "hello"⟩, ⟨"assistant", extractionApology⟩]
            Status.not_found (some "hello")).status = Status.resolved)) :=
  C4_graph_transitions (fun _ => Except.ok "NONE") (fun _ => Except.ok "[(1,)]")
    (fun _ => Except.ok "done") ⟨[⟨"user", "hello"⟩], Status.started, none⟩
    ⟨[⟨"user", "hello"⟩, ⟨"assistant", extractionApology⟩], Status.not_found,
      some "hello"⟩ rfl rfl

/-- Claim C5, counterexample: for the model-returned clause
`whereabouts = \x27x\x27` (not `NONE`, and not beginning with a `WHERE`
keyword, merely with the letters `where`), the constructed count query
contains zero `WHERE` tokens, not exactly one: the prefix test of line 71 is a
character test, not a keyword test, so nothing is prepended. -/
theorem C5_counterexample :
    whereTokenCount (buildCountQuery "whereabouts = \x27x\x27") ≠ 1 := by
  decide

/-- Claim C5, amended: `WHERE ` is prepended exactly when the stripped,
lowered clause does not start with the five-character prefix `where`; the
count query therefore contains one more `WHERE` token than the clause itself
in that case, and exactly the clause\x27s own `WHERE` tokens otherwise.
"Exactly one `WHERE` token" holds only when the clause contributes the right
number itself (for instance a clause with no `where` occurrence at all, which
gains the prepended token). -/
theorem C5_amended_where_tokens (c : String) :
    whereTokenCount (buildCountQuery c) =
      whereTokenCount c +
        (if pyStartsWith (pyLower (pyStrip c)) "where" then 0 else 1) := by
  unfold buildCountQuery whereTokenCount
  by_cases hb : pyStartsWith (pyLower (pyStrip c)) "where"
  · rw [if_pos hb, if_pos hb, String.data_append, wordsAux_select_prefix,
      filter_query_prefix_words, Nat.add_zero]
  · rw [if_neg hb, if_neg hb, String.data_append, String.data_append,
      wordsAux_select_prefix, wordsAux_where_prefix,
      filter_query_prefix_words, filter_where_word, List.length_cons]

/-- Claim C6: when the trimmed model response equals `NONE` in any letter
case, the step returns `not_found` with the fixed extraction apology appended
and `user_query` set to the triggering input.  The conclusion holds for every
store oracle `dbRun` and does not mention it, so no store query is executed in
this case. -/
theorem C6_none_response (llm dbRun : String → Except String String)
    (st : GraphState) (last : Message) (r : String)
    (hg : st.messages.getLast? = some last)
    (hm : llm (wherePrompt last.content) = Except.ok r)
    (hn : pyUpper (pyStrip r) = "NONE") :
    validate_customer_node llm dbRun st =
      Except.ok
        { messages := st.messages ++
            [{ role := "assistant", content := extractionApology }],
          status := Status.not_found,
          user_query := some last.content } := by
  unfold validate_customer_node
  simp [hg, hm, hn]

/-- Witness for C6: a mixed-case, whitespace-padded `NONE` answer against a
store that would raise if it were consulted. -/
theorem C6_none_response_witness :
    validate_customer_node (fun _ => Except.ok "  none ")
        (fun _ => Except.error "store must not be called")
        ⟨[⟨"user", "hello"⟩], Status.started, none⟩ =
      Except.ok
        { messages := [⟨"user", "hello"⟩] ++
            [{ role := "assistant", content := extractionApology }],
          status := Status.not_found,
          user_query := some "hello" } :=
  C6_none_response (fun _ => Except.ok "  none ")
    (fun _ => Except.error "store must not be called")
    ⟨[⟨"user", "hello"⟩], Status.started, none⟩ ⟨"user", "hello"⟩ "  none "
    rfl rfl rfl

/-- Claim C7: with a non-`NONE` clause, a store answer of `"[(0,)]"` for the
count query yields `not_found` with the lookup apology appended, and a store
answer of `"[(3,)]"` yields `validated` with the messages unchanged; in both
cases `user_query` is set to the triggering input. -/
theorem C7_count_results (llm dbRun : String → Except String String)
    (st : GraphState) (last : Message) (r : String)
    (hg : st.messages.getLast? = some last)
    (hm : llm (wherePrompt last.content) = Except.ok r)
    (hn : pyUpper (pyStrip r) ≠ "NONE") :
    (dbRun (buildCountQuery (pyStrip r)) = Except.ok "[(0,)]" →
      validate_customer_node llm dbRun st =
        Except.ok
          { messages := st.messages ++
              [{ role := "assistant", content := lookupApology }],
            status := Status.not_found,
            user_query := some last.content }) ∧
    (dbRun (buildCountQuery (pyStrip r)) = Except.ok "[(3,)]" →
      validate_customer_node llm dbRun st =
        Except.ok
          { messages := st.messages,
            status := Status.validated,
            user_query := some last.content }) := by
  constructor
  · intro hdb
    unfold validate_customer_node
    simp only [hg, hm, if_neg hn, hdb]
    rfl
  · intro hdb
    unfold validate_customer_node
    simp only [hg, hm, if_neg hn, hdb]
    rfl

/-- Witness for C7 at a concrete run: count `3` validates the customer. -/
theorem C7_count_results_witness :
    validate_customer_node (fun _ => Except.ok "name = \x27Raj\x27")
        (fun _ => Except.ok "[(3,)]")
        ⟨[⟨"user", "hi, this is Raj"⟩], Status.started, none⟩ =
      Except.ok
        { messages := [⟨"user", "hi, this is Raj"⟩],
          status := Status.validated,
          user_query := some "hi, this is Raj" } :=
  (C7_count_results (fun _ => Except.ok "name = \x27Raj\x27")
    (fun _ => Except.ok "[(3,)]")
    ⟨[⟨"user", "hi, this is Raj"⟩], Status.started, none⟩
    ⟨"user", "hi, this is Raj"⟩ "name = \x27Raj\x27" rfl rfl
    (by decide)).2 rfl

/-- Claim C8: a chain response carrying the serialized issue row yields the
exact synthesized sentence, and any serialized-looking response whose parse
fails or whose first tuple does not have exactly three components is appended
as the raw text prefixed with `Final Answer: `. -/
theorem C8_resolution_formatting :
    (resolve_issue_node
        (fun _ => Except.ok
          "[(\x27123 Main St\x27, \x27No Signal\x27, \x272024-01-02 10:00:00\x27)]")
        ⟨[⟨"user", "net down"⟩], Status.validated, some "net down"⟩ =
      ⟨[⟨"user", "net down"⟩,
        ⟨"assistant",
          "Final Answer: There is a \x27No Signal\x27 issue reported at your address (123 Main St). It is expected to be resolved by 2024-01-02 10:00:00."⟩],
        Status.resolved, some "net down"⟩) ∧
    (∀ (chain : String → Except String String) (st : GraphState) (q raw : String),
      st.user_query = some q →
      chain (pyStrip SYSTEM_PROMPT ++ "\n\nUser: " ++ pyStrip q) = Except.ok raw →
      pyStartsWith (pyStrip raw) "[" = true →
      (∀ t rest, parseTupleList raw = some (t :: rest) → t.length ≠ 3) →
      resolve_issue_node chain st =
        { messages := st.messages ++
            [{ role := "assistant", content := "Final Answer: " ++ raw }],
          status := Status.resolved,
          user_query := st.user_query }) := by
  constructor
  · rfl
  · intro chain st q raw hq hc hb hshape
    unfold resolve_issue_node
    simp only [hq, hc, formatResolution_fallback hb hshape]

/-- Witness for the fallback half of C8: the one-component row `[(0,)]`. -/
theorem C8_resolution_formatting_witness :
    resolve_issue_node (fun _ => Except.ok "[(0,)]")
        ⟨[⟨"user", "net down"⟩], Status.validated, some "net down"⟩ =
      { messages := [⟨"user", "net down"⟩] ++
          [{ role := "assistant", content := "Final Answer: " ++ "[(0,)]" }],
        status := Status.resolved,
        user_query := some "net down" } :=
  C8_resolution_formatting.2 (fun _ => Except.ok "[(0,)]")
    ⟨[⟨"user", "net down"⟩], Status.validated, some "net down"⟩
    "net down" "[(0,)]" rfl rfl rfl
    (by
      intro t rest h
      have h0 : parseTupleList "[(0,)]" = some [[PyLit.pint 0]] := rfl
      rw [h0] at h
      injection h with h1
      injection h1 with h2 h3
      rw [← h2]
      decide)

/-- Claim C9: a chain response that is plain text not starting with `[` (after
stripping) is appended completely unchanged, with no `Final Answer: ` prefix
added. -/
theorem C9_plain_text_passthrough (chain : String → Except String String)
    (st : GraphState) (q raw : String)
    (hq : st.user_query = some q)
    (hc : chain (pyStrip SYSTEM_PROMPT ++ "\n\nUser: " ++ pyStrip q) =
      Except.ok raw)
    (hb : pyStartsWith (pyStrip raw) "[" = false) :
    resolve_issue_node chain st =
      { messages := st.messages ++ [{ role := "assistant", content := raw }],
        status := Status.resolved,
        user_query := st.user_query } := by
  have hf : formatResolution raw = raw := by
    unfold formatResolution
    rw [if_neg (by simp [hb])]
  unfold resolve_issue_node
  simp only [hq, hc, hf]

/-- Witness for C9: an already-final plain-text chain answer. -/
theorem C9_plain_text_passthrough_witness :
    resolve_issue_node (fun _ => Except.ok "All good at your address.")
        ⟨[⟨"user", "net down"⟩], Status.validated, some "net down"⟩ =
      { messages := [⟨"user", "net down"⟩] ++
          [{ role := "assistant", content := "All good at your address." }],
        status := Status.resolved,
        user_query := some "net down" } :=
  C9_plain_text_passthrough (fun _ => Except.ok "All good at your address.")
    ⟨[⟨"user", "net down"⟩], Status.validated, some "net down"⟩
    "net down" "All good at your address." rfl rfl rfl

/-- Claim C10: the validation step reads the last message before any exception
handling: with a non-empty messages list the access is defined and every
returned branch has `user_query` equal to that last message\x27s content, but
with an empty messages list the step fails at the access instead of returning
a `not_found` state. -/
theorem C10_last_message_access :
    (∀ (llm dbRun : String → Except String String) (st : GraphState),
      st.messages = [] →
      validate_customer_node llm dbRun st =
        Except.error "IndexError: list index out of range") ∧
    (∀ (llm dbRun : String → Except String String) (st v : GraphState)
      (last : Message),
      st.messages.getLast? = some last →
      validate_customer_node llm dbRun st = Except.ok v →
      v.user_query = some last.content) := by
  constructor
  · intro llm dbRun st h
    unfold validate_customer_node
    simp [h]
  · intro llm dbRun st v last hg h
    obtain ⟨last2, hg2, hu, _⟩ := validate_ok_shape h
    rw [hg] at hg2
    injection hg2 with h2
    rw [hu, ← h2]

/-- Witness for C10: the empty-messages failure and a concrete
`user_query` snapshot. -/
theorem C10_last_message_access_witness :
    validate_customer_node (fun _ => Except.ok "NONE")
        (fun _ => Except.ok "[(1,)]") ⟨[], Status.started, none⟩ =
      Except.error "IndexError: list index out of range" ∧
    (GraphState.mk [⟨"user", "hi"⟩, ⟨"assistant", extractionApology⟩]
        Status.not_found (some "hi")).user_query =
      some (Message.mk "user" "hi").content :=
  ⟨C10_last_message_access.1 (fun _ => Except.ok "NONE")
      (fun _ => Except.ok "[(1,)]") ⟨[], Status.started, none⟩ rfl,
    C10_last_message_access.2 (fun _ => Except.ok "NONE")
      (fun _ => Except.ok "[(1,)]") ⟨[⟨"user", "hi"⟩], Status.started, none⟩
      ⟨[⟨"user", "hi"⟩, ⟨"assistant", extractionApology⟩], Status.not_found,
        some "hi"⟩ ⟨"user", "hi"⟩ rfl rfl⟩

end TelecomAgent
